import Mathlib

set_option maxHeartbeats 1000000
set_option maxRecDepth 100000

/-!
Shallow embedding of `src/app/models.py` (the entity schema layer of the
divine-simulator dashboard).

Conventions of the embedding:
* `Decimal` fields become `Rat` (exact fixed-point arithmetic, no binary
  floating point), `str` becomes `String`, `int` becomes `Int`,
  `datetime` becomes an abstract `Timestamp` (`Nat`), `Optional[T]`
  becomes `Option T`.
* `Dict[str, Any]` / JSON columns become association lists over a small
  JSON-value type `JVal`; `Dict[str, Decimal]` becomes
  `List (String × Rat)`.
* Each `Field(...)` declaration's validation constraints (`max_length`,
  `ge`, `le`) are collected into a per-entity validator returning
  `Except ValidationError Unit`, checking the fields in declaration
  order and reporting the first violated constraint with the field name.
* Python field defaults become Lean structure-field defaults;
  `default_factory=datetime.utcnow` fields are supplied at creation time.
* `str`-valued enums become inductive types with the declared member
  strings; parsing an out-of-set string yields a `ValidationError`.
-/

abbrev Timestamp := Nat

/-- JSON-like values stored in the open `Dict[str, Any]` columns. -/
inductive JVal where
  | jnull
  | jbool (b : Bool)
  | jnum (q : Rat)
  | jstr (s : String)
  | jarr (xs : List JVal)
  | jobj (fields : List (String × JVal))

abbrev JMap := List (String × JVal)

/-- Field-level constraint violation: the field name and the violated
constraint (length, numeric bound, enum membership). -/
structure ValidationError where
  field : String
  constraint : String
deriving DecidableEq, Repr

/- Enums (models.py lines 9-45). -/

inductive GlyphCategory where
  | protection
  | transformation
  | healing
  | communication
  | energy
deriving DecidableEq, Repr

def GlyphCategory.val : GlyphCategory → String
  | .protection => "protection"
  | .transformation => "transformation"
  | .healing => "healing"
  | .communication => "communication"
  | .energy => "energy"

/-- Parse a string into the closed `GlyphCategory` member set; any other
string is a field-level validation failure (no coercion to a default). -/
def GlyphCategory.ofString (s : String) : Except ValidationError GlyphCategory :=
  if s = "protection" then Except.ok GlyphCategory.protection
  else if s = "transformation" then Except.ok GlyphCategory.transformation
  else if s = "healing" then Except.ok GlyphCategory.healing
  else if s = "communication" then Except.ok GlyphCategory.communication
  else if s = "energy" then Except.ok GlyphCategory.energy
  else Except.error ⟨"category", "enum"⟩

inductive MissionStatus where
  | pending
  | active
  | completed
  | failed
  | suspended
deriving DecidableEq, Repr

def MissionStatus.val : MissionStatus → String
  | .pending => "pending"
  | .active => "active"
  | .completed => "completed"
  | .failed => "failed"
  | .suspended => "suspended"

/-- Parse a string into the closed `MissionStatus` member set. -/
def MissionStatus.ofString (s : String) : Except ValidationError MissionStatus :=
  if s = "pending" then Except.ok MissionStatus.pending
  else if s = "active" then Except.ok MissionStatus.active
  else if s = "completed" then Except.ok MissionStatus.completed
  else if s = "failed" then Except.ok MissionStatus.failed
  else if s = "suspended" then Except.ok MissionStatus.suspended
  else Except.error ⟨"status", "enum"⟩

inductive MissionPriority where
  | low
  | medium
  | high
  | critical
deriving DecidableEq, Repr

def MissionPriority.val : MissionPriority → String
  | .low => "low"
  | .medium => "medium"
  | .high => "high"
  | .critical => "critical"

/-- Parse a string into the closed `MissionPriority` member set. -/
def MissionPriority.ofString (s : String) : Except ValidationError MissionPriority :=
  if s = "low" then Except.ok MissionPriority.low
  else if s = "medium" then Except.ok MissionPriority.medium
  else if s = "high" then Except.ok MissionPriority.high
  else if s = "critical" then Except.ok MissionPriority.critical
  else Except.error ⟨"priority", "enum"⟩

inductive EmotionalState where
  | harmonious
  | turbulent
  | resonant
  | chaotic
  | serene
deriving DecidableEq, Repr

def EmotionalState.val : EmotionalState → String
  | .harmonious => "harmonious"
  | .turbulent => "turbulent"
  | .resonant => "resonant"
  | .chaotic => "chaotic"
  | .serene => "serene"

/-- Parse a string into the closed `EmotionalState` member set. -/
def EmotionalState.ofString (s : String) : Except ValidationError EmotionalState :=
  if s = "harmonious" then Except.ok EmotionalState.harmonious
  else if s = "turbulent" then Except.ok EmotionalState.turbulent
  else if s = "resonant" then Except.ok EmotionalState.resonant
  else if s = "chaotic" then Except.ok EmotionalState.chaotic
  else if s = "serene" then Except.ok EmotionalState.serene
  else Except.error ⟨"current_state", "enum"⟩

inductive ShieldStatus where
  | optimal
  | degraded
  | critical
  | offline
  | regenerating
deriving DecidableEq, Repr

def ShieldStatus.val : ShieldStatus → String
  | .optimal => "optimal"
  | .degraded => "degraded"
  | .critical => "critical"
  | .offline => "offline"
  | .regenerating => "regenerating"

/-- Parse a string into the closed `ShieldStatus` member set. -/
def ShieldStatus.ofString (s : String) : Except ValidationError ShieldStatus :=
  if s = "optimal" then Except.ok ShieldStatus.optimal
  else if s = "degraded" then Except.ok ShieldStatus.degraded
  else if s = "critical" then Except.ok ShieldStatus.critical
  else if s = "offline" then Except.ok ShieldStatus.offline
  else if s = "regenerating" then Except.ok ShieldStatus.regenerating
  else Except.error ⟨"status", "enum"⟩

/- Persistent entities (models.py lines 49-207).  Field defaults mirror
the `Field(default=...)` declarations; `default_factory` timestamps are
supplied by the caller at creation. -/

structure Glyph where
  id : Option Int := none
  name : String
  symbol : String
  category : GlyphCategory := GlyphCategory.energy
  power_level : Rat := 1
  description : String := ""
  properties : JMap := []
  is_active : Bool := true
  discovered_at : Timestamp
  last_used : Option Timestamp := none

structure TransformationProtocol where
  id : Option Int := none
  name : String
  description : String := ""
  duration_minutes : Int := 60
  energy_cost : Rat := 10
  success_rate : Rat := 85
  requirements : List String := []
  effects : JMap := []
  is_active : Bool := true
  created_at : Timestamp
  last_modified : Timestamp

structure TransformationStep where
  id : Option Int := none
  protocol_id : Int
  glyph_id : Option Int := none
  step_order : Int
  instruction : String
  duration_seconds : Int := 300
  parameters : JMap := []

structure Mission where
  id : Option Int := none
  title : String
  description : String := ""
  status : MissionStatus := MissionStatus.pending
  priority : MissionPriority := MissionPriority.medium
  protocol_id : Option Int := none
  assigned_entity : String := ""
  target_location : String := ""
  objectives : List String := []
  progress_percentage : Rat := 0
  estimated_completion : Option Timestamp := none
  actual_completion : Option Timestamp := none
  created_at : Timestamp
  started_at : Option Timestamp := none
  mission_metadata : JMap := []

structure MissionLogEntry where
  id : Option Int := none
  mission_id : Int
  entry_type : String := "update"
  message : String
  progress_delta : Rat := 0
  created_at : Timestamp
  log_metadata : JMap := []

structure EmotionalResonance where
  id : Option Int := none
  entity_name : String
  current_state : EmotionalState := EmotionalState.serene
  resonance_level : Rat := 50
  harmony_index : Rat := 50
  emotional_spectrum : List (String × Rat) := []
  sync_stability : Rat := 75
  last_fluctuation : Option Timestamp := none
  recorded_at : Timestamp
  notes : String := ""

structure QuantumShield where
  id : Option Int := none
  shield_name : String
  status : ShieldStatus := ShieldStatus.optimal
  integrity_percentage : Rat := 100
  energy_level : Rat := 100
  power_consumption : Rat := 25
  protection_radius_km : Rat := 10
  last_breach_attempt : Option Timestamp := none
  uptime_hours : Rat := 0
  configuration : JMap := []
  status_updated_at : Timestamp

structure HealingModule where
  id : Option Int := none
  shield_id : Int
  module_name : String
  is_operational : Bool := true
  healing_rate : Rat := 10
  energy_efficiency : Rat := 85
  target_systems : List String := []
  last_activation : Option Timestamp := none
  total_healings : Int := 0
  created_at : Timestamp

/- Field-constraint checks, mirroring `Field(max_length=...)`,
`Field(ge=...)`, `Field(le=...)` in the source.  `seqV` chains checks,
keeping the first error. -/

def seqV : Except ValidationError Unit → Except ValidationError Unit → Except ValidationError Unit
  | Except.ok _, e => e
  | Except.error err, _ => Except.error err

def checkMaxLen (f : String) (maxLen : Nat) (s : String) : Except ValidationError Unit :=
  if s.length ≤ maxLen then Except.ok () else Except.error ⟨f, "max_length"⟩

def checkGe (f : String) (lo q : Rat) : Except ValidationError Unit :=
  if lo ≤ q then Except.ok () else Except.error ⟨f, "ge"⟩

def checkLe (f : String) (hi q : Rat) : Except ValidationError Unit :=
  if q ≤ hi then Except.ok () else Except.error ⟨f, "le"⟩

def checkIntGe (f : String) (lo q : Int) : Except ValidationError Unit :=
  if lo ≤ q then Except.ok () else Except.error ⟨f, "ge"⟩

/-- Declared constraints of `Glyph` (models.py lines 54-63), in field order:
`name` max 100, `symbol` max 10, `power_level` in [0,100], `description`
max 1000. -/
def validateGlyph (g : Glyph) : Except ValidationError Unit :=
  seqV (checkMaxLen "name" 100 g.name)
    (seqV (checkMaxLen "symbol" 10 g.symbol)
      (seqV (checkGe "power_level" 0 g.power_level)
        (seqV (checkLe "power_level" 100 g.power_level)
          (checkMaxLen "description" 1000 g.description))))

/-- Declared constraints of `TransformationProtocol` (lines 74-84):
`name` max 150, `description` max 2000, `duration_minutes` ≥ 1,
`energy_cost` ≥ 0, `success_rate` in [0,100]. -/
def validateTransformationProtocol (p : TransformationProtocol) : Except ValidationError Unit :=
  seqV (checkMaxLen "name" 150 p.name)
    (seqV (checkMaxLen "description" 2000 p.description)
      (seqV (checkIntGe "duration_minutes" 1 p.duration_minutes)
        (seqV (checkGe "energy_cost" 0 p.energy_cost)
          (seqV (checkGe "success_rate" 0 p.success_rate)
            (checkLe "success_rate" 100 p.success_rate)))))

/-- Declared constraints of `TransformationStep` (lines 96-102):
`step_order` ≥ 1, `instruction` max 500, `duration_seconds` ≥ 1.  The
foreign keys `protocol_id`/`glyph_id` carry no field-level constraint
here; they are resolved at creation against the store. -/
def validateTransformationStep (s : TransformationStep) : Except ValidationError Unit :=
  seqV (checkIntGe "step_order" 1 s.step_order)
    (seqV (checkMaxLen "instruction" 500 s.instruction)
      (checkIntGe "duration_seconds" 1 s.duration_seconds))

/-- Declared constraints of `Mission` (lines 114-128): `title` max 200,
`description` max 2000, `assigned_entity` max 100, `target_location`
max 200, `progress_percentage` in [0,100]. -/
def validateMission (m : Mission) : Except ValidationError Unit :=
  seqV (checkMaxLen "title" 200 m.title)
    (seqV (checkMaxLen "description" 2000 m.description)
      (seqV (checkMaxLen "assigned_entity" 100 m.assigned_entity)
        (seqV (checkMaxLen "target_location" 200 m.target_location)
          (seqV (checkGe "progress_percentage" 0 m.progress_percentage)
            (checkLe "progress_percentage" 100 m.progress_percentage)))))

/-- Declared constraints of `MissionLogEntry` (lines 140-146):
`entry_type` max 50, `message` max 1000.  `progress_delta` carries no
`ge`/`le` bound in the source. -/
def validateMissionLogEntry (e : MissionLogEntry) : Except ValidationError Unit :=
  seqV (checkMaxLen "entry_type" 50 e.entry_type)
    (checkMaxLen "message" 1000 e.message)

/-- Declared constraints of `EmotionalResonance` (lines 157-166):
`entity_name` max 100, `resonance_level`, `harmony_index`,
`sync_stability` in [0,100], `notes` max 500. -/
def validateEmotionalResonance (r : EmotionalResonance) : Except ValidationError Unit :=
  seqV (checkMaxLen "entity_name" 100 r.entity_name)
    (seqV (checkGe "resonance_level" 0 r.resonance_level)
      (seqV (checkLe "resonance_level" 100 r.resonance_level)
        (seqV (checkGe "harmony_index" 0 r.harmony_index)
          (seqV (checkLe "harmony_index" 100 r.harmony_index)
            (seqV (checkGe "sync_stability" 0 r.sync_stability)
              (seqV (checkLe "sync_stability" 100 r.sync_stability)
                (checkMaxLen "notes" 500 r.notes)))))))

/-- Declared constraints of `QuantumShield` (lines 174-184):
`shield_name` max 100, `integrity_percentage`, `energy_level` in
[0,100], `power_consumption` ≥ 0, `protection_radius_km` ≥ 0,
`uptime_hours` ≥ 0. -/
def validateQuantumShield (q : QuantumShield) : Except ValidationError Unit :=
  seqV (checkMaxLen "shield_name" 100 q.shield_name)
    (seqV (checkGe "integrity_percentage" 0 q.integrity_percentage)
      (seqV (checkLe "integrity_percentage" 100 q.integrity_percentage)
        (seqV (checkGe "energy_level" 0 q.energy_level)
          (seqV (checkLe "energy_level" 100 q.energy_level)
            (seqV (checkGe "power_consumption" 0 q.power_consumption)
              (seqV (checkGe "protection_radius_km" 0 q.protection_radius_km)
                (checkGe "uptime_hours" 0 q.uptime_hours)))))))

/-- Declared constraints of `HealingModule` (lines 195-204):
`module_name` max 100, `healing_rate` ≥ 0, `energy_efficiency` in
[0,100], `total_healings` ≥ 0. -/
def validateHealingModule (h : HealingModule) : Except ValidationError Unit :=
  seqV (checkMaxLen "module_name" 100 h.module_name)
    (seqV (checkGe "healing_rate" 0 h.healing_rate)
      (seqV (checkGe "energy_efficiency" 0 h.energy_efficiency)
        (seqV (checkLe "energy_efficiency" 100 h.energy_efficiency)
          (checkIntGe "total_healings" 0 h.total_healings))))

/-- Success of a validator: it returned `ok`, i.e. no declared
constraint was violated. -/
def vOk (e : Except ValidationError Unit) : Prop := e = Except.ok ()

/- Non-persistent request shapes (models.py lines 211-297). The two
shapes needed operationally by the claims are embedded as structures;
the full inventory of shapes and their field sets is embedded as the
registry `requestShapes` below. -/

structure MissionCreate where
  title : String
  description : String := ""
  priority : MissionPriority := MissionPriority.medium
  protocol_id : Option Int := none
  assigned_entity : String := ""
  target_location : String := ""
  objectives : List String := []
  estimated_completion : Option Timestamp := none

structure MissionUpdate where
  title : Option String := none
  description : Option String := none
  status : Option MissionStatus := none
  priority : Option MissionPriority := none
  progress_percentage : Option Rat := none
  assigned_entity : Option String := none
  target_location : Option String := none
  objectives : Option (List String) := none

/-- MissionUpdate with every field absent (`None` defaults, lines 252-259). -/
def emptyMissionUpdate : MissionUpdate := {}

inductive ShapeKind where
  | create
  | update
deriving DecidableEq, Repr

/-- Field of a request shape: its name and whether the caller must
supply it (`required` = declared without a default). -/
structure FieldSpec where
  name : String
  required : Bool
deriving DecidableEq, Repr

structure ShapeSpec where
  entity : String
  kind : ShapeKind
  fields : List FieldSpec
deriving DecidableEq, Repr

/-- Names of the eight persisted entity types (models.py lines 49-207). -/
def entityNames : List String :=
  ["Glyph", "TransformationProtocol", "TransformationStep", "Mission",
   "MissionLogEntry", "EmotionalResonance", "QuantumShield", "HealingModule"]

/-- Inventory of the `table=False` request shapes declared in
models.py lines 211-297, in source order, with each field's name and
whether it is required (no declared default). -/
def requestShapes : List ShapeSpec :=
  [{ entity := "Glyph", kind := ShapeKind.create,
     fields := [⟨"name", true⟩, ⟨"symbol", true⟩, ⟨"category", false⟩,
                ⟨"power_level", false⟩, ⟨"description", false⟩, ⟨"properties", false⟩] },
   { entity := "Glyph", kind := ShapeKind.update,
     fields := [⟨"name", false⟩, ⟨"symbol", false⟩, ⟨"category", false⟩,
                ⟨"power_level", false⟩, ⟨"description", false⟩, ⟨"properties", false⟩,
                ⟨"is_active", false⟩] },
   { entity := "TransformationProtocol", kind := ShapeKind.create,
     fields := [⟨"name", true⟩, ⟨"description", false⟩, ⟨"duration_minutes", false⟩,
                ⟨"energy_cost", false⟩, ⟨"success_rate", false⟩, ⟨"requirements", false⟩,
                ⟨"effects", false⟩] },
   { entity := "Mission", kind := ShapeKind.create,
     fields := [⟨"title", true⟩, ⟨"description", false⟩, ⟨"priority", false⟩,
                ⟨"protocol_id", false⟩, ⟨"assigned_entity", false⟩,
                ⟨"target_location", false⟩, ⟨"objectives", false⟩,
                ⟨"estimated_completion", false⟩] },
   { entity := "Mission", kind := ShapeKind.update,
     fields := [⟨"title", false⟩, ⟨"description", false⟩, ⟨"status", false⟩,
                ⟨"priority", false⟩, ⟨"progress_percentage", false⟩,
                ⟨"assigned_entity", false⟩, ⟨"target_location", false⟩,
                ⟨"objectives", false⟩] },
   { entity := "EmotionalResonance", kind := ShapeKind.create,
     fields := [⟨"entity_name", true⟩, ⟨"current_state", false⟩,
                ⟨"resonance_level", false⟩, ⟨"harmony_index", false⟩,
                ⟨"emotional_spectrum", false⟩, ⟨"sync_stability", false⟩,
                ⟨"notes", false⟩] },
   { entity := "QuantumShield", kind := ShapeKind.create,
     fields := [⟨"shield_name", true⟩, ⟨"status", false⟩,
                ⟨"integrity_percentage", false⟩, ⟨"energy_level", false⟩,
                ⟨"power_consumption", false⟩, ⟨"protection_radius_km", false⟩,
                ⟨"configuration", false⟩] },
   { entity := "QuantumShield", kind := ShapeKind.update,
     fields := [⟨"shield_name", false⟩, ⟨"status", false⟩,
                ⟨"integrity_percentage", false⟩, ⟨"energy_level", false⟩,
                ⟨"power_consumption", false⟩, ⟨"protection_radius_km", false⟩,
                ⟨"configuration", false⟩] },
   { entity := "HealingModule", kind := ShapeKind.create,
     fields := [⟨"shield_id", true⟩, ⟨"module_name", true⟩, ⟨"healing_rate", false⟩,
                ⟨"energy_efficiency", false⟩, ⟨"target_systems", false⟩] }]

/-- Modelled from the spec: creating a Mission from a `MissionCreate`
shape (absent from src, which declares only the shapes) copies the
supplied fields and lets the entity's declared defaults fill every
field the shape does not expose (spec: Create shapes omit
server-assigned fields; defaults apply on creation when the field is
omitted; `created_at` is set to the current time at creation). -/
def missionFromCreate (c : MissionCreate) (now : Timestamp) : Mission :=
  { title := c.title
    description := c.description
    priority := c.priority
    protocol_id := c.protocol_id
    assigned_entity := c.assigned_entity
    target_location := c.target_location
    objectives := c.objectives
    estimated_completion := c.estimated_completion
    created_at := now }

/-- Modelled from the spec: partial-patch application of a
`MissionUpdate` (absent from src, which declares only the shape): a
field that is present replaces the stored value, an absent field
leaves the stored value unchanged, and fields the shape does not
expose are never touched. -/
def applyMissionUpdate (m : Mission) (u : MissionUpdate) : Mission :=
  { m with
    title := u.title.getD m.title
    description := u.description.getD m.description
    status := u.status.getD m.status
    priority := u.priority.getD m.priority
    progress_percentage := u.progress_percentage.getD m.progress_percentage
    assigned_entity := u.assigned_entity.getD m.assigned_entity
    target_location := u.target_location.getD m.target_location
    objectives := u.objectives.getD m.objectives }

/- An in-memory store and the create operations for child entities
with required foreign keys. -/

/-- Error taxonomy of the write path: field-level `ValidationError` or
an unresolved required relationship reference (a `ReferenceError`,
carrying the referencing field). -/
inductive CreateError where
  | validation (e : ValidationError)
  | reference (field : String)
deriving DecidableEq, Repr

structure DB where
  glyphs : List Glyph := []
  protocols : List TransformationProtocol := []
  steps : List TransformationStep := []
  missions : List Mission := []
  log_entries : List MissionLogEntry := []
  resonances : List EmotionalResonance := []
  shields : List QuantumShield := []
  modules : List HealingModule := []

/-- Modelled from the spec: the persistence collaborator's create
operation for `TransformationStep` (absent from src, which declares
only the `foreign_key` columns): it validates the declared field
constraints, then rejects an unresolved `protocol_id` (required) or
`glyph_id` (optional, checked only when supplied) with a
ReferenceError naming the field. -/
def createTransformationStep (db : DB) (s : TransformationStep) : Except CreateError DB :=
  match validateTransformationStep s with
  | Except.error e => Except.error (CreateError.validation e)
  | Except.ok _ =>
    if db.protocols.any (fun p => p.id == some s.protocol_id) then
      match s.glyph_id with
      | none => Except.ok { db with steps := db.steps ++ [s] }
      | some g =>
        if db.glyphs.any (fun gl => gl.id == some g) then
          Except.ok { db with steps := db.steps ++ [s] }
        else Except.error (CreateError.reference "glyph_id")
    else Except.error (CreateError.reference "protocol_id")

/-- Modelled from the spec: create operation for `MissionLogEntry`
(absent from src): validates field constraints, then rejects an
unresolved required `mission_id` with a ReferenceError. -/
def createMissionLogEntry (db : DB) (e : MissionLogEntry) : Except CreateError DB :=
  match validateMissionLogEntry e with
  | Except.error err => Except.error (CreateError.validation err)
  | Except.ok _ =>
    if db.missions.any (fun m => m.id == some e.mission_id) then
      Except.ok { db with log_entries := db.log_entries ++ [e] }
    else Except.error (CreateError.reference "mission_id")

/-- Modelled from the spec: create operation for `HealingModule`
(absent from src): validates field constraints, then rejects an
unresolved required `shield_id` with a ReferenceError. -/
def createHealingModule (db : DB) (h : HealingModule) : Except CreateError DB :=
  match validateHealingModule h with
  | Except.error err => Except.error (CreateError.validation err)
  | Except.ok _ =>
    if db.shields.any (fun sh => sh.id == some h.shield_id) then
      Except.ok { db with modules := db.modules ++ [h] }
    else Except.error (CreateError.reference "shield_id")

/- Concrete instances used by boundary and counterexample theorems. -/

/-- Valid Glyph with all defaulted fields at their declared defaults. -/
def baseGlyph : Glyph := { name := "", symbol := "", discovered_at := 0 }

def baseProtocol : TransformationProtocol := { name := "", created_at := 0, last_modified := 0 }

def baseStep : TransformationStep := { protocol_id := 1, step_order := 1, instruction := "" }

def baseMission : Mission := { title := "", created_at := 0 }

def baseLogEntry : MissionLogEntry := { mission_id := 1, message := "", created_at := 0 }

def baseResonance : EmotionalResonance := { entity_name := "", recorded_at := 0 }

def baseShield : QuantumShield := { shield_name := "", status_updated_at := 0 }

def baseModule : HealingModule := { shield_id := 1, module_name := "", created_at := 0 }

/-- String of length `n` (all `a`), for length-boundary statements. -/
def strOfLen (n : Nat) : String := String.mk (List.replicate n 'a')

/-- Two distinct steps of the same protocol carrying the same
`step_order`; both satisfy every declared entity-layer constraint. -/
def dupStepA : TransformationStep :=
  { id := some 1, protocol_id := 1, step_order := 1, instruction := "Align crystals" }

def dupStepB : TransformationStep :=
  { id := some 2, protocol_id := 1, step_order := 1, instruction := "Invoke glyph" }

/-- Mission whose `actual_completion` is set while its status is not
`completed`; it satisfies every declared entity-layer constraint. -/
def badMission : Mission :=
  { title := "Breach containment", status := MissionStatus.pending,
    actual_completion := some 5, created_at := 0 }

def protocolOne : TransformationProtocol :=
  { id := some 1, name := "Solar Cleansing", created_at := 0, last_modified := 0 }

/-- Store containing exactly one protocol (id 1) and nothing else. -/
def dbOne : DB := { protocols := [protocolOne] }

def stepOrphan : TransformationStep :=
  { protocol_id := 2, step_order := 1, instruction := "Align crystals" }

def stepPlain : TransformationStep :=
  { protocol_id := 1, step_order := 1, instruction := "Align crystals" }

def logOrphan : MissionLogEntry :=
  { mission_id := 7, message := "status update", created_at := 0 }

def moduleOrphan : HealingModule :=
  { shield_id := 3, module_name := "regen core", created_at := 0 }

/- Helper lemmas about the constraint checks. -/

theorem vOk_seqV (a b : Except ValidationError Unit) : vOk (seqV a b) ↔ vOk a ∧ vOk b := by
  cases a with
  | ok u => cases u; simp [seqV, vOk]
  | error e => simp [seqV, vOk]

theorem vOk_checkMaxLen (f : String) (n : Nat) (s : String) :
    vOk (checkMaxLen f n s) ↔ s.length ≤ n := by
  unfold checkMaxLen vOk
  split_ifs with h <;> simp [h]

theorem vOk_checkGe (f : String) (lo q : Rat) : vOk (checkGe f lo q) ↔ lo ≤ q := by
  unfold checkGe vOk
  split_ifs with h <;> simp [h]

theorem vOk_checkLe (f : String) (hi q : Rat) : vOk (checkLe f hi q) ↔ q ≤ hi := by
  unfold checkLe vOk
  split_ifs with h <;> simp [h]

theorem vOk_checkIntGe (f : String) (lo q : Int) : vOk (checkIntGe f lo q) ↔ lo ≤ q := by
  unfold checkIntGe vOk
  split_ifs with h <;> simp [h]

theorem strOfLen_length (n : Nat) : (strOfLen n).length = n := by
  simp [strOfLen, String.length]

/-- C1: for each bounded decimal field (power_level, success_rate,
progress_percentage, integrity_percentage, energy_level,
resonance_level, harmony_index, sync_stability, energy_efficiency),
constructing the owning entity (all other fields valid) passes the
declared validation exactly when the value lies in [0,100]; hence any
value strictly below 0 or strictly above 100 is rejected with a
ValidationError and the values 0 and 100 are accepted. -/
theorem bounded_decimal_fields_accept_exactly_0_to_100 (q : Rat) :
    (vOk (validateGlyph { baseGlyph with power_level := q }) ↔ 0 ≤ q ∧ q ≤ 100) ∧
    (vOk (validateTransformationProtocol { baseProtocol with success_rate := q }) ↔ 0 ≤ q ∧ q ≤ 100) ∧
    (vOk (validateMission { baseMission with progress_percentage := q }) ↔ 0 ≤ q ∧ q ≤ 100) ∧
    (vOk (validateQuantumShield { baseShield with integrity_percentage := q }) ↔ 0 ≤ q ∧ q ≤ 100) ∧
    (vOk (validateQuantumShield { baseShield with energy_level := q }) ↔ 0 ≤ q ∧ q ≤ 100) ∧
    (vOk (validateEmotionalResonance { baseResonance with resonance_level := q }) ↔ 0 ≤ q ∧ q ≤ 100) ∧
    (vOk (validateEmotionalResonance { baseResonance with harmony_index := q }) ↔ 0 ≤ q ∧ q ≤ 100) ∧
    (vOk (validateEmotionalResonance { baseResonance with sync_stability := q }) ↔ 0 ≤ q ∧ q ≤ 100) ∧
    (vOk (validateHealingModule { baseModule with energy_efficiency := q }) ↔ 0 ≤ q ∧ q ≤ 100) := by
  refine ⟨?_, ?_, ?_, ?_, ?_, ?_, ?_, ?_, ?_⟩ <;>
    norm_num [validateGlyph, validateTransformationProtocol, validateMission,
      validateQuantumShield, validateEmotionalResonance, validateHealingModule,
      baseGlyph, baseProtocol, baseMission, baseShield, baseResonance, baseModule,
      vOk_seqV, vOk_checkMaxLen, vOk_checkGe, vOk_checkLe, vOk_checkIntGe]

/-- C2 counterexample: two distinct steps of the same protocol with the
same step_order both pass the entity-layer validation, so uniqueness of
step_order within a protocol is not enforced at step creation by the
entity layer. -/
theorem step_order_duplicate_accepted_by_entity_layer :
    vOk (validateTransformationStep dupStepA) ∧
    vOk (validateTransformationStep dupStepB) ∧
    dupStepA.protocol_id = dupStepB.protocol_id ∧
    dupStepA.step_order = dupStepB.step_order ∧
    dupStepA.id ≠ dupStepB.id := by
  refine ⟨rfl, rfl, rfl, rfl, ?_⟩
  decide

/-- C2 amended: the entity layer validates each TransformationStep in
isolation, checking exactly step_order ≥ 1, instruction length ≤ 500
and duration_seconds ≥ 1; uniqueness or contiguity of step_order
across the steps of a protocol is not checked by the entity layer. -/
theorem validateTransformationStep_checks_only_single_step_bounds (s : TransformationStep) :
    vOk (validateTransformationStep s) ↔
      1 ≤ s.step_order ∧ s.instruction.length ≤ 500 ∧ 1 ≤ s.duration_seconds := by
  simp [validateTransformationStep, vOk_seqV, vOk_checkIntGe, vOk_checkMaxLen]

/-- C3 counterexample: TransformationStep is one of the persisted
entity types, yet the layer declares no request shape at all (neither
Create nor Update) for it. -/
theorem transformation_step_has_no_request_shapes :
    "TransformationStep" ∈ entityNames ∧
    requestShapes.all (fun s => s.entity != "TransformationStep") = true := by
  decide

/-- C3 amended: the layer declares Create shapes exactly for Glyph,
TransformationProtocol, Mission, EmotionalResonance, QuantumShield and
HealingModule, and Update shapes exactly for Glyph, Mission and
QuantumShield (TransformationStep and MissionLogEntry have none);
every field of every Update shape is optional, and the required fields
of the Create shapes are exactly name+symbol (Glyph), name (Protocol),
title (Mission), entity_name (EmotionalResonance), shield_name
(QuantumShield) and shield_id+module_name (HealingModule). -/
theorem request_shapes_inventory :
    (requestShapes.filter (fun s => s.kind == ShapeKind.create)).map (fun s => s.entity) =
      ["Glyph", "TransformationProtocol", "Mission", "EmotionalResonance",
       "QuantumShield", "HealingModule"] ∧
    (requestShapes.filter (fun s => s.kind == ShapeKind.update)).map (fun s => s.entity) =
      ["Glyph", "Mission", "QuantumShield"] ∧
    requestShapes.all
      (fun s => s.kind != ShapeKind.update || s.fields.all (fun f => !f.required)) = true ∧
    requestShapes.map (fun s => (s.fields.filter (fun f => f.required)).map (fun f => f.name)) =
      [["name", "symbol"], [], ["name"], ["title"], [], ["entity_name"],
       ["shield_name"], [], ["shield_id", "module_name"]] := by
  refine ⟨?_, ?_, ?_, ?_⟩ <;> decide

/-- C4 counterexample: a Mission whose actual_completion is set while
its status is pending passes every declared entity-layer constraint,
so the cross-field invariant is not enforced on Mission construction. -/
theorem mission_actual_completion_without_completed_accepted :
    vOk (validateMission badMission) ∧
    badMission.actual_completion = some 5 ∧
    badMission.status ≠ MissionStatus.completed := by
  refine ⟨rfl, rfl, ?_⟩
  decide

/-- C4 amended: the entity layer itself never enforces the implication
"actual_completion set → status completed"; however, along the
declared request-shape path the invariant holds vacuously: neither
MissionCreate nor MissionUpdate exposes actual_completion, so a
Mission created from a MissionCreate shape and updated by any sequence
of MissionUpdate patches always has actual_completion unset. -/
theorem create_update_path_never_sets_actual_completion
    (c : MissionCreate) (now : Timestamp) (us : List MissionUpdate) :
    (us.foldl applyMissionUpdate (missionFromCreate c now)).actual_completion = none := by
  have h : ∀ (ms : List MissionUpdate) (m : Mission),
      (ms.foldl applyMissionUpdate m).actual_completion = m.actual_completion := by
    intro ms
    induction ms with
    | nil => intro m; rfl
    | cons u rest ih => intro m; simpa [List.foldl] using ih (applyMissionUpdate m u)
  rw [h]
  rfl

/-- C5: creating a TransformationStep whose protocol_id, a
MissionLogEntry whose mission_id, or a HealingModule whose shield_id
does not resolve to an existing parent record fails with a
ReferenceError naming the referencing field, and creating a
TransformationStep with a resolvable protocol_id and no glyph_id
succeeds (glyph_id is optional). -/
theorem create_child_checks_required_references :
    (∀ (db : DB) (s : TransformationStep),
        validateTransformationStep s = Except.ok () →
        db.protocols.any (fun p => p.id == some s.protocol_id) = false →
        createTransformationStep db s = Except.error (CreateError.reference "protocol_id")) ∧
    (∀ (db : DB) (e : MissionLogEntry),
        validateMissionLogEntry e = Except.ok () →
        db.missions.any (fun m => m.id == some e.mission_id) = false →
        createMissionLogEntry db e = Except.error (CreateError.reference "mission_id")) ∧
    (∀ (db : DB) (h : HealingModule),
        validateHealingModule h = Except.ok () →
        db.shields.any (fun sh => sh.id == some h.shield_id) = false →
        createHealingModule db h = Except.error (CreateError.reference "shield_id")) ∧
    (∀ (db : DB) (s : TransformationStep),
        validateTransformationStep s = Except.ok () →
        s.glyph_id = none →
        db.protocols.any (fun p => p.id == some s.protocol_id) = true →
        createTransformationStep db s = Except.ok { db with steps := db.steps ++ [s] }) := by
  refine ⟨?_, ?_, ?_, ?_⟩
  · intro db s hv hany
    simp [createTransformationStep, hv, hany]
  · intro db e hv hany
    simp [createMissionLogEntry, hv, hany]
  · intro db h hv hany
    simp [createHealingModule, hv, hany]
  · intro db s hv hg hany
    simp [createTransformationStep, hv, hg, hany]

/-- C5 witness: in a store holding only protocol 1, a step referencing
protocol 2, a log entry referencing mission 7 and a healing module
referencing shield 3 are rejected with the corresponding
ReferenceError, while a valid step referencing protocol 1 with no
glyph is accepted. -/
theorem create_child_checks_required_references_witness :
    createTransformationStep dbOne stepOrphan = Except.error (CreateError.reference "protocol_id") ∧
    createMissionLogEntry dbOne logOrphan = Except.error (CreateError.reference "mission_id") ∧
    createHealingModule dbOne moduleOrphan = Except.error (CreateError.reference "shield_id") ∧
    createTransformationStep dbOne stepPlain = Except.ok { dbOne with steps := dbOne.steps ++ [stepPlain] } :=
  ⟨create_child_checks_required_references.1 dbOne stepOrphan rfl rfl,
   create_child_checks_required_references.2.1 dbOne logOrphan rfl rfl,
   create_child_checks_required_references.2.2.1 dbOne moduleOrphan rfl rfl,
   create_child_checks_required_references.2.2.2 dbOne stepPlain rfl rfl rfl⟩

/-- C6: applying a MissionUpdate that sets exactly one field changes
only that field of the stored Mission (shown for each of the eight
fields the shape exposes), and the Mission fields the shape does not
expose (id, protocol_id, estimated_completion, actual_completion,
created_at, started_at, mission_metadata) are unchanged by every
update application. -/
theorem applyMissionUpdate_single_field_frame :
    (∀ (m : Mission) (v : String),
        applyMissionUpdate m { emptyMissionUpdate with title := some v } = { m with title := v }) ∧
    (∀ (m : Mission) (v : String),
        applyMissionUpdate m { emptyMissionUpdate with description := some v } = { m with description := v }) ∧
    (∀ (m : Mission) (v : MissionStatus),
        applyMissionUpdate m { emptyMissionUpdate with status := some v } = { m with status := v }) ∧
    (∀ (m : Mission) (v : MissionPriority),
        applyMissionUpdate m { emptyMissionUpdate with priority := some v } = { m with priority := v }) ∧
    (∀ (m : Mission) (v : Rat),
        applyMissionUpdate m { emptyMissionUpdate with progress_percentage := some v } = { m with progress_percentage := v }) ∧
    (∀ (m : Mission) (v : String),
        applyMissionUpdate m { emptyMissionUpdate with assigned_entity := some v } = { m with assigned_entity := v }) ∧
    (∀ (m : Mission) (v : String),
        applyMissionUpdate m { emptyMissionUpdate with target_location := some v } = { m with target_location := v }) ∧
    (∀ (m : Mission) (v : List String),
        applyMissionUpdate m { emptyMissionUpdate with objectives := some v } = { m with objectives := v }) ∧
    (∀ (m : Mission) (u : MissionUpdate),
        (applyMissionUpdate m u).id = m.id ∧
        (applyMissionUpdate m u).protocol_id = m.protocol_id ∧
        (applyMissionUpdate m u).estimated_completion = m.estimated_completion ∧
        (applyMissionUpdate m u).actual_completion = m.actual_completion ∧
        (applyMissionUpdate m u).created_at = m.created_at ∧
        (applyMissionUpdate m u).started_at = m.started_at ∧
        (applyMissionUpdate m u).mission_metadata = m.mission_metadata) :=
  ⟨fun _ _ => rfl, fun _ _ => rfl, fun _ _ => rfl, fun _ _ => rfl, fun _ _ => rfl,
   fun _ _ => rfl, fun _ _ => rfl, fun _ _ => rfl,
   fun _ _ => ⟨rfl, rfl, rfl, rfl, rfl, rfl, rfl⟩⟩

/-- C7: each enum-valued field (Glyph.category, Mission.status,
Mission.priority, EmotionalResonance.current_state,
QuantumShield.status) parses exactly its declared member strings, and
any other string yields a ValidationError on that field rather than
being coerced to a default member. -/
theorem enum_fields_accept_only_declared_members (s : String) :
    ((∃ c, GlyphCategory.ofString s = Except.ok c ∧ s = c.val) ∨
      (s ∉ ["protection", "transformation", "healing", "communication", "energy"] ∧
        GlyphCategory.ofString s = Except.error ⟨"category", "enum"⟩)) ∧
    ((∃ c, MissionStatus.ofString s = Except.ok c ∧ s = c.val) ∨
      (s ∉ ["pending", "active", "completed", "failed", "suspended"] ∧
        MissionStatus.ofString s = Except.error ⟨"status", "enum"⟩)) ∧
    ((∃ c, MissionPriority.ofString s = Except.ok c ∧ s = c.val) ∨
      (s ∉ ["low", "medium", "high", "critical"] ∧
        MissionPriority.ofString s = Except.error ⟨"priority", "enum"⟩)) ∧
    ((∃ c, EmotionalState.ofString s = Except.ok c ∧ s = c.val) ∨
      (s ∉ ["harmonious", "turbulent", "resonant", "chaotic", "serene"] ∧
        EmotionalState.ofString s = Except.error ⟨"current_state", "enum"⟩)) ∧
    ((∃ c, ShieldStatus.ofString s = Except.ok c ∧ s = c.val) ∨
      (s ∉ ["optimal", "degraded", "critical", "offline", "regenerating"] ∧
        ShieldStatus.ofString s = Except.error ⟨"status", "enum"⟩)) := by
  refine ⟨?_, ?_, ?_, ?_, ?_⟩
  · unfold GlyphCategory.ofString
    split_ifs with h1 h2 h3 h4 h5
    · exact Or.inl ⟨GlyphCategory.protection, rfl, h1⟩
    · exact Or.inl ⟨GlyphCategory.transformation, rfl, h2⟩
    · exact Or.inl ⟨GlyphCategory.healing, rfl, h3⟩
    · exact Or.inl ⟨GlyphCategory.communication, rfl, h4⟩
    · exact Or.inl ⟨GlyphCategory.energy, rfl, h5⟩
    · exact Or.inr ⟨by simp [h1, h2, h3, h4, h5], rfl⟩
  · unfold MissionStatus.ofString
    split_ifs with h1 h2 h3 h4 h5
    · exact Or.inl ⟨MissionStatus.pending, rfl, h1⟩
    · exact Or.inl ⟨MissionStatus.active, rfl, h2⟩
    · exact Or.inl ⟨MissionStatus.completed, rfl, h3⟩
    · exact Or.inl ⟨MissionStatus.failed, rfl, h4⟩
    · exact Or.inl ⟨MissionStatus.suspended, rfl, h5⟩
    · exact Or.inr ⟨by simp [h1, h2, h3, h4, h5], rfl⟩
  · unfold MissionPriority.ofString
    split_ifs with h1 h2 h3 h4
    · exact Or.inl ⟨MissionPriority.low, rfl, h1⟩
    · exact Or.inl ⟨MissionPriority.medium, rfl, h2⟩
    · exact Or.inl ⟨MissionPriority.high, rfl, h3⟩
    · exact Or.inl ⟨MissionPriority.critical, rfl, h4⟩
    · exact Or.inr ⟨by simp [h1, h2, h3, h4], rfl⟩
  · unfold EmotionalState.ofString
    split_ifs with h1 h2 h3 h4 h5
    · exact Or.inl ⟨EmotionalState.harmonious, rfl, h1⟩
    · exact Or.inl ⟨EmotionalState.turbulent, rfl, h2⟩
    · exact Or.inl ⟨EmotionalState.resonant, rfl, h3⟩
    · exact Or.inl ⟨EmotionalState.chaotic, rfl, h4⟩
    · exact Or.inl ⟨EmotionalState.serene, rfl, h5⟩
    · exact Or.inr ⟨by simp [h1, h2, h3, h4, h5], rfl⟩
  · unfold ShieldStatus.ofString
    split_ifs with h1 h2 h3 h4 h5
    · exact Or.inl ⟨ShieldStatus.optimal, rfl, h1⟩
    · exact Or.inl ⟨ShieldStatus.degraded, rfl, h2⟩
    · exact Or.inl ⟨ShieldStatus.critical, rfl, h3⟩
    · exact Or.inl ⟨ShieldStatus.offline, rfl, h4⟩
    · exact Or.inl ⟨ShieldStatus.regenerating, rfl, h5⟩
    · exact Or.inr ⟨by simp [h1, h2, h3, h4, h5], rfl⟩

/-- C8: for every string field of the persisted entities with a
declared maximum length, constructing the owning entity with a string
of exactly that length passes validation, and with one character more
fails with a ValidationError naming the field (Glyph.name 100,
Glyph.symbol 10, Glyph.description 1000, TransformationProtocol.name
150, TransformationProtocol.description 2000,
TransformationStep.instruction 500, Mission.title 200,
Mission.description 2000, Mission.assigned_entity 100,
Mission.target_location 200, MissionLogEntry.entry_type 50,
MissionLogEntry.message 1000, EmotionalResonance.entity_name 100,
EmotionalResonance.notes 500, QuantumShield.shield_name 100,
HealingModule.module_name 100). -/
theorem string_max_length_boundaries :
    validateGlyph { baseGlyph with name := strOfLen 100 } = Except.ok () ∧
    validateGlyph { baseGlyph with name := strOfLen 101 } = Except.error ⟨"name", "max_length"⟩ ∧
    validateGlyph { baseGlyph with symbol := strOfLen 10 } = Except.ok () ∧
    validateGlyph { baseGlyph with symbol := strOfLen 11 } = Except.error ⟨"symbol", "max_length"⟩ ∧
    validateGlyph { baseGlyph with description := strOfLen 1000 } = Except.ok () ∧
    validateGlyph { baseGlyph with description := strOfLen 1001 } = Except.error ⟨"description", "max_length"⟩ ∧
    validateTransformationProtocol { baseProtocol with name := strOfLen 150 } = Except.ok () ∧
    validateTransformationProtocol { baseProtocol with name := strOfLen 151 } = Except.error ⟨"name", "max_length"⟩ ∧
    validateTransformationProtocol { baseProtocol with description := strOfLen 2000 } = Except.ok () ∧
    validateTransformationProtocol { baseProtocol with description := strOfLen 2001 } = Except.error ⟨"description", "max_length"⟩ ∧
    validateTransformationStep { baseStep with instruction := strOfLen 500 } = Except.ok () ∧
    validateTransformationStep { baseStep with instruction := strOfLen 501 } = Except.error ⟨"instruction", "max_length"⟩ ∧
    validateMission { baseMission with title := strOfLen 200 } = Except.ok () ∧
    validateMission { baseMission with title := strOfLen 201 } = Except.error ⟨"title", "max_length"⟩ ∧
    validateMission { baseMission with description := strOfLen 2000 } = Except.ok () ∧
    validateMission { baseMission with description := strOfLen 2001 } = Except.error ⟨"description", "max_length"⟩ ∧
    validateMission { baseMission with assigned_entity := strOfLen 100 } = Except.ok () ∧
    validateMission { baseMission with assigned_entity := strOfLen 101 } = Except.error ⟨"assigned_entity", "max_length"⟩ ∧
    validateMission { baseMission with target_location := strOfLen 200 } = Except.ok () ∧
    validateMission { baseMission with target_location := strOfLen 201 } = Except.error ⟨"target_location", "max_length"⟩ ∧
    validateMissionLogEntry { baseLogEntry with entry_type := strOfLen 50 } = Except.ok () ∧
    validateMissionLogEntry { baseLogEntry with entry_type := strOfLen 51 } = Except.error ⟨"entry_type", "max_length"⟩ ∧
    validateMissionLogEntry { baseLogEntry with message := strOfLen 1000 } = Except.ok () ∧
    validateMissionLogEntry { baseLogEntry with message := strOfLen 1001 } = Except.error ⟨"message", "max_length"⟩ ∧
    validateEmotionalResonance { baseResonance with entity_name := strOfLen 100 } = Except.ok () ∧
    validateEmotionalResonance { baseResonance with entity_name := strOfLen 101 } = Except.error ⟨"entity_name", "max_length"⟩ ∧
    validateEmotionalResonance { baseResonance with notes := strOfLen 500 } = Except.ok () ∧
    validateEmotionalResonance { baseResonance with notes := strOfLen 501 } = Except.error ⟨"notes", "max_length"⟩ ∧
    validateQuantumShield { baseShield with shield_name := strOfLen 100 } = Except.ok () ∧
    validateQuantumShield { baseShield with shield_name := strOfLen 101 } = Except.error ⟨"shield_name", "max_length"⟩ ∧
    validateHealingModule { baseModule with module_name := strOfLen 100 } = Except.ok () ∧
    validateHealingModule { baseModule with module_name := strOfLen 101 } = Except.error ⟨"module_name", "max_length"⟩ :=
  ⟨rfl, rfl, rfl, rfl, rfl, rfl, rfl, rfl, rfl, rfl, rfl, rfl, rfl, rfl, rfl, rfl,
   rfl, rfl, rfl, rfl, rfl, rfl, rfl, rfl, rfl, rfl, rfl, rfl, rfl, rfl, rfl, rfl⟩

/-- C9: a Mission built from any MissionCreate shape starts with
status pending, progress_percentage exactly 0 and actual_completion
unset, and the MissionCreate shape indeed exposes none of these three
fields. -/
theorem missionFromCreate_initial_defaults (c : MissionCreate) (now : Timestamp) :
    (missionFromCreate c now).status = MissionStatus.pending ∧
    (missionFromCreate c now).progress_percentage = 0 ∧
    (missionFromCreate c now).actual_completion = none ∧
    (requestShapes.filter (fun s => s.entity == "Mission" && s.kind == ShapeKind.create)).all
      (fun s => s.fields.all (fun f =>
        !(["status", "progress_percentage", "actual_completion"].contains f.name))) = true :=
  ⟨rfl, rfl, rfl, by decide⟩

/-- C10: MissionLogEntry.progress_delta is an unbounded signed decimal
with default 0: the entity validator's outcome does not depend on
progress_delta at all (so every value, negative or of magnitude above
100, is accepted whenever the rest of the entry is valid), the
declared default is 0, and in particular large negative and large
positive deltas pass validation; the validator receives only the log
entry, so no constraint couples the delta to the owning Mission's
progress_percentage. -/
theorem progress_delta_unbounded_signed_default_zero :
    (∀ (e : MissionLogEntry) (d : Rat),
        validateMissionLogEntry { e with progress_delta := d } = validateMissionLogEntry e) ∧
    ({ mission_id := 1, message := "", created_at := 0 : MissionLogEntry }.progress_delta = 0) ∧
    validateMissionLogEntry { baseLogEntry with progress_delta := -(12345 : Rat) } = Except.ok () ∧
    validateMissionLogEntry { baseLogEntry with progress_delta := (1000 : Rat) } = Except.ok () :=
  ⟨fun _ _ => rfl, rfl, rfl, rfl⟩
